import Mathlib

/-!
Verification of gkey-unlock.

A shallow embedding of `src/gkey-unlock.c`: the thirteen-line `main` that asks
the GNOME keyring library to unlock the default keyring and reports the result.

The program calls two things it does not define, `gnome_keyring_unlock_sync`
(library libgnome-keyring, header `gnome-keyring.h`) and `printf` (libc).  The
keyring library is a parameter of the embedding; `printf` is modelled for the
one conversion the source uses, `%d`.  Effects are recorded as a trace of
events, in program order.
-/

namespace GkeyUnlock

/-- A C `const char *` argument: `none` is the `NULL` pointer. -/
abbrev CStr := Option String

/-- The C type `GnomeKeyringResult`, an enum; a value is kept as the `int`
that `printf` receives for `%d`. -/
abbrev GnomeKeyringResult := Int

/-- What `gnome-keyring.h` and its library supply to `main`: the enumerator
`GNOME_KEYRING_RESULT_OK` and the blocking call `gnome_keyring_unlock_sync
(keyring, password)`.  Neither is defined in the repository, so both are taken
as given. -/
structure GnomeKeyring where
  GNOME_KEYRING_RESULT_OK : GnomeKeyringResult
  gnome_keyring_unlock_sync : CStr → CStr → GnomeKeyringResult

/-- An externally visible action of the process: a call of the keyring
library's unlock function, a write to standard output, an operation on a file
(create, write, remove), or an access to the process environment. -/
inductive Event where
  | unlock_call (keyring password : CStr)
  | stdout_write (text : String)
  | file_op (path : String)
  | env_op (name : String)
deriving DecidableEq, Repr

/-- The trace of actions performed so far, oldest first. -/
abbrev Trace := List Event

/-- The `%d` conversion of `printf`: signed decimal, no padding, a leading
`-` for a negative value and no sign otherwise. -/
def fmt_d (v : Int) : List Char :=
  if v < 0 then '-' :: Nat.toDigits 10 v.natAbs else Nat.toDigits 10 v.toNat

/-- The characters `printf` produces for a format and its `int` arguments:
`%d` takes the next argument, every other character is copied. -/
def format : List Char → List Int → List Char
  | '%' :: 'd' :: rest, a :: args => fmt_d a ++ format rest args
  | c :: rest, args => c :: format rest args
  | [], _ => []

/-- The call `printf(fmt, args...)`: one write of the formatted text to
standard output. -/
def printf (fmt : String) (args : List Int) (t : Trace) : Trace :=
  t ++ [Event.stdout_write (String.mk (format fmt.data args))]

/-- The call `gnome_keyring_unlock_sync(keyring, password)`: recorded in the
trace, its result is the library's. -/
def call_unlock_sync (lib : GnomeKeyring) (keyring password : CStr) (t : Trace) :
    GnomeKeyringResult × Trace :=
  (lib.gnome_keyring_unlock_sync keyring password, t ++ [Event.unlock_call keyring password])

/-- The function `main` of `gkey-unlock.c`, run on a trace: the exit status
and the trace afterwards. -/
def main_from (lib : GnomeKeyring) (t : Trace) : Int × Trace :=
  let (lock_result, t1) := call_unlock_sync lib none none t
  if lock_result = lib.GNOME_KEYRING_RESULT_OK then
    (0, printf "Successfully unlocked\n" [] t1)
  else
    (1, printf "Error unlocking keyring: %d\n" [lock_result] t1)

/-- One run of the program: `main` started on the empty trace. -/
def main (lib : GnomeKeyring) : Int × Trace := main_from lib []

/-- The exit status of a run. -/
def exit_status (lib : GnomeKeyring) : Int := (main lib).1

/-- The trace of a run. -/
def trace (lib : GnomeKeyring) : Trace := (main lib).2

/-- The texts written to standard output in a trace, in order. -/
def stdout_writes : Trace → List String
  | [] => []
  | Event.stdout_write s :: t => s :: stdout_writes t
  | _ :: t => stdout_writes t

/-- Everything a run wrote to standard output, concatenated. -/
def stdout (lib : GnomeKeyring) : String :=
  String.join (stdout_writes (trace lib))

/-- The unlock calls of a trace, in order, each with its two arguments. -/
def unlock_calls : Trace → List (CStr × CStr)
  | [] => []
  | Event.unlock_call k p :: t => (k, p) :: unlock_calls t
  | _ :: t => unlock_calls t

/-- A library whose unlock call answers `c` whatever it is asked, with success
enumerator `ok`. -/
def constLib (ok c : Int) : GnomeKeyring :=
  { GNOME_KEYRING_RESULT_OK := ok, gnome_keyring_unlock_sync := fun _ _ => c }

/-- The result code the library hands to `main`: what the unlock call returns
for the arguments `main` passes, `(NULL, NULL)`. -/
def result_code (lib : GnomeKeyring) : GnomeKeyringResult :=
  lib.gnome_keyring_unlock_sync none none

/-- The signed decimal rendering of an `int`, as a string. -/
def decimal (v : Int) : String := String.mk (fmt_d v)

/-- The number a string of decimal digits denotes, most significant first. -/
def decodeNat (cs : List Char) : Nat :=
  cs.foldl (fun a c => a * 10 + (c.toNat - 48)) 0

/-- The `int` a signed decimal string denotes. -/
def decodeInt : List Char → Int
  | '-' :: cs => -(decodeNat cs : Int)
  | cs => (decodeNat cs : Int)

/-- Modelled from the spec: the header `gnome-keyring.h`, which declares the
enumerators of `GnomeKeyringResult`, is not part of the repository; the spec
gives the enumerator `DENIED` the numeric value `5`. -/
def GNOME_KEYRING_RESULT_DENIED : GnomeKeyringResult := 5

/-- An event that touches a file or the process environment. -/
def Event.touches_files_or_env : Event → Bool
  | Event.file_op _ => true
  | Event.env_op _ => true
  | _ => false

/-- A library that answers `5` when asked for the default keyring with no
password and `9` for any other request, with success enumerator `0`. -/
def pickyLib : GnomeKeyring :=
  { GNOME_KEYRING_RESULT_OK := 0,
    gnome_keyring_unlock_sync := fun k p => if k.isNone && p.isNone then 5 else 9 }

/-- Reads the result code back from the line `main` printed, given the value
of the success enumerator: the success line stands for `ok`, any other line
for the number between the 25-character prefix and the final newline. -/
def recover (ok : Int) (out : String) : Int :=
  if out = "Successfully unlocked\n" then ok
  else decodeInt ((out.data.drop 25).dropLast)

/-! ## Decimal rendering -/

theorem digitChar_isDigit (d : Nat) (h : d < 10) : (Nat.digitChar d).isDigit = true := by
  interval_cases d <;> decide

theorem digitChar_val (d : Nat) (h : d < 10) : (Nat.digitChar d).toNat - 48 = d := by
  interval_cases d <;> decide

theorem toDigitsCore_append (fuel : Nat) : ∀ (n : Nat) (ds : List Char),
    Nat.toDigitsCore 10 fuel n ds = Nat.toDigitsCore 10 fuel n [] ++ ds := by
  induction fuel with
  | zero => intro n ds; simp [Nat.toDigitsCore]
  | succ f ih =>
    intro n ds
    simp only [Nat.toDigitsCore]
    by_cases h : n / 10 = 0
    · simp [h]
    · simp only [h, if_false]
      rw [ih (n / 10) (Nat.digitChar (n % 10) :: ds), ih (n / 10) [Nat.digitChar (n % 10)]]
      simp

theorem toDigitsCore_isDigit (fuel : Nat) : ∀ (n : Nat) (c : Char),
    c ∈ Nat.toDigitsCore 10 fuel n [] → c.isDigit = true := by
  induction fuel with
  | zero => intro n c hc; simp [Nat.toDigitsCore] at hc
  | succ f ih =>
    intro n c hc
    simp only [Nat.toDigitsCore] at hc
    have hd : (Nat.digitChar (n % 10)).isDigit = true :=
      digitChar_isDigit _ (Nat.mod_lt _ (by decide))
    by_cases h : n / 10 = 0
    · simp only [h, if_true, List.mem_singleton] at hc
      exact hc ▸ hd
    · simp only [h, if_false] at hc
      rw [toDigitsCore_append] at hc
      rcases List.mem_append.mp hc with h1 | h1
      · exact ih _ _ h1
      · rw [List.mem_singleton] at h1
        exact h1 ▸ hd

theorem decodeNat_toDigitsCore (fuel : Nat) : ∀ (n : Nat), n < fuel →
    decodeNat (Nat.toDigitsCore 10 fuel n []) = n := by
  induction fuel with
  | zero => intro n hn; omega
  | succ f ih =>
    intro n hn
    simp only [Nat.toDigitsCore]
    have hv := digitChar_val (n % 10) (Nat.mod_lt _ (by decide))
    by_cases h : n / 10 = 0
    · simp only [h, if_true, decodeNat, List.foldl, hv]
      omega
    · simp only [h, if_false]
      rw [toDigitsCore_append]
      have ih1 := ih (n / 10) (by omega)
      unfold decodeNat at ih1 ⊢
      rw [List.foldl_append, ih1]
      simp only [List.foldl, hv]
      omega

theorem toDigits_isDigit (n : Nat) (c : Char) (hc : c ∈ Nat.toDigits 10 n) : c.isDigit = true :=
  toDigitsCore_isDigit _ _ _ hc

theorem decodeNat_toDigits (n : Nat) : decodeNat (Nat.toDigits 10 n) = n :=
  decodeNat_toDigitsCore _ _ (Nat.lt_succ_self n)

theorem toDigits_head_ne_minus (n : Nat) (cs : List Char) : Nat.toDigits 10 n ≠ '-' :: cs := by
  intro h
  have hm := toDigits_isDigit n '-' (by rw [h]; exact List.mem_cons_self _ _)
  exact absurd hm (by decide)

/-- The decimal rendering can be read back: `decodeInt` inverts `fmt_d`. -/
theorem decodeInt_fmt_d (v : Int) : decodeInt (fmt_d v) = v := by
  unfold fmt_d
  by_cases h : v < 0
  · simp only [h, if_true, decodeInt, decodeNat_toDigits]
    omega
  · simp only [h, if_false]
    have hne : ∀ cs, Nat.toDigits 10 v.toNat ≠ '-' :: cs := toDigits_head_ne_minus _
    have : decodeInt (Nat.toDigits 10 v.toNat) = (decodeNat (Nat.toDigits 10 v.toNat) : Int) := by
      generalize Nat.toDigits 10 v.toNat = l at hne
      unfold decodeInt
      split
      · exact absurd rfl (hne _)
      · rfl
    rw [this, decodeNat_toDigits]
    omega

theorem fmt_d_injective (v w : Int) (h : fmt_d v = fmt_d w) : v = w := by
  rw [← decodeInt_fmt_d v, ← decodeInt_fmt_d w, h]

theorem fmt_d_no_newline (v : Int) : '\n' ∉ fmt_d v := by
  have hd : ¬ ('\n'.isDigit = true) := by decide
  unfold fmt_d
  intro hm
  by_cases h : v < 0
  · simp only [h, if_true, List.mem_cons] at hm
    rcases hm with h1 | h1
    · exact absurd h1 (by decide)
    · exact hd (toDigits_isDigit _ _ h1)
  · simp only [h, if_false] at hm
    exact hd (toDigits_isDigit _ _ hm)

/-- The model of `%d` agrees with Lean's own decimal printing of an integer. -/
theorem decimal_eq_toString (v : Int) : decimal v = toString v := by
  unfold decimal fmt_d
  cases v with
  | ofNat n => rfl
  | negSucc n =>
    have h : Int.negSucc n < 0 := Int.negSucc_lt_zero n
    simp only [h, if_true]
    rfl

/-! ## What `main` does -/

theorem format_error_line (c : Int) :
    String.mk (format "Error unlocking keyring: %d\n".data [c]) =
      "Error unlocking keyring: " ++ decimal c ++ "\n" := by
  rfl

theorem main_success (lib : GnomeKeyring) (h : result_code lib = lib.GNOME_KEYRING_RESULT_OK) :
    main lib = (0, [Event.unlock_call none none,
      Event.stdout_write "Successfully unlocked\n"]) := by
  unfold result_code at h
  simp [main, main_from, call_unlock_sync, h, printf]
  rfl

theorem main_failure (lib : GnomeKeyring) (h : result_code lib ≠ lib.GNOME_KEYRING_RESULT_OK) :
    main lib = (1, [Event.unlock_call none none,
      Event.stdout_write ("Error unlocking keyring: " ++ decimal (result_code lib) ++ "\n")]) := by
  unfold result_code at h
  simp only [main, main_from, call_unlock_sync, h, printf, if_false, List.nil_append,
    List.singleton_append, format_error_line]
  rfl

theorem exit_status_success (lib : GnomeKeyring)
    (h : result_code lib = lib.GNOME_KEYRING_RESULT_OK) : exit_status lib = 0 := by
  simp [exit_status, main_success lib h]

theorem exit_status_failure (lib : GnomeKeyring)
    (h : result_code lib ≠ lib.GNOME_KEYRING_RESULT_OK) : exit_status lib = 1 := by
  simp [exit_status, main_failure lib h]

theorem trace_success (lib : GnomeKeyring)
    (h : result_code lib = lib.GNOME_KEYRING_RESULT_OK) :
    trace lib = [Event.unlock_call none none,
      Event.stdout_write "Successfully unlocked\n"] := by
  simp [trace, main_success lib h]

theorem trace_failure (lib : GnomeKeyring)
    (h : result_code lib ≠ lib.GNOME_KEYRING_RESULT_OK) :
    trace lib = [Event.unlock_call none none,
      Event.stdout_write ("Error unlocking keyring: " ++ decimal (result_code lib) ++ "\n")] := by
  simp [trace, main_failure lib h]

theorem join_singleton (s : String) : String.join [s] = s := by
  simp [String.join]

theorem stdout_success (lib : GnomeKeyring)
    (h : result_code lib = lib.GNOME_KEYRING_RESULT_OK) :
    stdout lib = "Successfully unlocked\n" := by
  rw [stdout, trace_success lib h]
  simp only [stdout_writes, join_singleton]

theorem stdout_failure (lib : GnomeKeyring)
    (h : result_code lib ≠ lib.GNOME_KEYRING_RESULT_OK) :
    stdout lib = "Error unlocking keyring: " ++ decimal (result_code lib) ++ "\n" := by
  rw [stdout, trace_failure lib h]
  simp only [stdout_writes, join_singleton]

/-- The trace of every run: the unlock call, then one write of the whole
standard output. -/
theorem trace_eq (lib : GnomeKeyring) :
    trace lib = [Event.unlock_call none none, Event.stdout_write (stdout lib)] := by
  by_cases h : result_code lib = lib.GNOME_KEYRING_RESULT_OK
  · rw [trace_success lib h, stdout_success lib h]
  · rw [trace_failure lib h, stdout_failure lib h]

theorem error_line_data (c : Int) :
    ("Error unlocking keyring: " ++ decimal c ++ "\n").data =
      "Error unlocking keyring: ".data ++ (fmt_d c ++ ['\n']) := by
  rfl

theorem drop_error_head (l : List Char) :
    ("Error unlocking keyring: ".data ++ l).drop 25 = l := by
  rfl

theorem error_line_ne_success (c : Int) :
    "Error unlocking keyring: " ++ decimal c ++ "\n" ≠ "Successfully unlocked\n" := by
  intro h
  have hd := congrArg String.data h
  rw [error_line_data] at hd
  have hh : some 'E' = some 'S' := congrArg List.head? hd
  exact absurd hh (by decide)

/-- The printed line determines the result code: `recover` reads it back. -/
theorem recover_stdout (lib : GnomeKeyring) :
    recover lib.GNOME_KEYRING_RESULT_OK (stdout lib) = result_code lib := by
  by_cases h : result_code lib = lib.GNOME_KEYRING_RESULT_OK
  · rw [stdout_success lib h, h]
    simp [recover]
  · rw [stdout_failure lib h]
    unfold recover
    rw [if_neg (error_line_ne_success _), error_line_data, drop_error_head,
      List.dropLast_concat, decodeInt_fmt_d]

theorem error_line_last (c : Int) :
    ("Error unlocking keyring: " ++ decimal c ++ "\n").data.getLast? = some '\n' := by
  rw [error_line_data, ← List.append_assoc, List.getLast?_concat]

theorem error_line_newlines (c : Int) :
    ("Error unlocking keyring: " ++ decimal c ++ "\n").data.count '\n' = 1 := by
  rw [error_line_data, List.count_append, List.count_append,
    List.count_eq_zero.mpr (fmt_d_no_newline c)]
  rfl

/-! ## The claims -/

/-- C1: whenever the unlock call returns a code other than
`GNOME_KEYRING_RESULT_OK`, whatever integer it is, `main` returns 1 and
standard output is exactly `Error unlocking keyring: `, the signed decimal
rendering of the code, and a newline. -/
theorem failure_mapping (lib : GnomeKeyring)
    (h : result_code lib ≠ lib.GNOME_KEYRING_RESULT_OK) :
    exit_status lib = 1 ∧
      stdout lib = "Error unlocking keyring: " ++ toString (result_code lib) ++ "\n" := by
  refine ⟨exit_status_failure lib h, ?_⟩
  rw [stdout_failure lib h, decimal_eq_toString]

theorem failure_mapping_witness :
    result_code (constLib 0 (-7)) ≠ (constLib 0 (-7)).GNOME_KEYRING_RESULT_OK ∧
      exit_status (constLib 0 (-7)) = 1 ∧
      stdout (constLib 0 (-7)) = "Error unlocking keyring: -7\n" :=
  ⟨by decide, failure_mapping (constLib 0 (-7)) (by decide)⟩

/-- C2: whenever the unlock call returns `GNOME_KEYRING_RESULT_OK`, `main`
returns 0 and standard output is exactly the line `Successfully unlocked`. -/
theorem success_mapping (lib : GnomeKeyring)
    (h : result_code lib = lib.GNOME_KEYRING_RESULT_OK) :
    exit_status lib = 0 ∧ stdout lib = "Successfully unlocked\n" :=
  ⟨exit_status_success lib h, stdout_success lib h⟩

theorem success_mapping_witness :
    result_code (constLib 0 0) = (constLib 0 0).GNOME_KEYRING_RESULT_OK ∧
      exit_status (constLib 0 0) = 0 ∧ stdout (constLib 0 0) = "Successfully unlocked\n" :=
  ⟨by decide, success_mapping (constLib 0 0) (by decide)⟩

/-- C3: for every library, `main` yields an exit status that is 0 or 1, and
it is 0 exactly when the result code is the success code. -/
theorem exit_status_two_valued (lib : GnomeKeyring) :
    (exit_status lib = 0 ∨ exit_status lib = 1) ∧
      (exit_status lib = 0 ↔ result_code lib = lib.GNOME_KEYRING_RESULT_OK) := by
  by_cases h : result_code lib = lib.GNOME_KEYRING_RESULT_OK
  · simp [exit_status_success lib h, h]
  · simp [exit_status_failure lib h, h]

/-- C4: in every run the unlock function is called exactly once, and at every
write to standard output that one call has already been made. -/
theorem single_call (lib : GnomeKeyring) :
    (unlock_calls (trace lib)).length = 1 ∧
      ∀ (pre post : Trace) (text : String),
        trace lib = pre ++ Event.stdout_write text :: post →
          (unlock_calls pre).length = 1 := by
  rw [trace_eq]
  refine ⟨rfl, ?_⟩
  intro pre post text hsplit
  match pre, hsplit with
  | [], hs => simp at hs
  | [e], hs =>
    simp only [List.singleton_append, List.cons.injEq] at hs
    rw [← hs.1]
    rfl
  | e1 :: e2 :: rest, hs =>
    have hl := congrArg List.length hs
    simp at hl

/-- C5: the unlock calls of a run are one call, made with `NULL` for the
keyring name (the default keyring) and `NULL` for the password, whatever the
library is. -/
theorem unlock_targets_default (lib : GnomeKeyring) :
    unlock_calls (trace lib) = [(none, none)] := by
  rw [trace_eq]
  rfl

/-- C6: for every result code, standard output is written once, and the text
written ends with a newline and holds no other newline. -/
theorem one_line_written (lib : GnomeKeyring) :
    stdout_writes (trace lib) = [stdout lib] ∧
      (stdout lib).data.getLast? = some '\n' ∧ (stdout lib).data.count '\n' = 1 := by
  refine ⟨by rw [trace_eq]; rfl, ?_⟩
  by_cases h : result_code lib = lib.GNOME_KEYRING_RESULT_OK
  · rw [stdout_success lib h]
    decide
  · rw [stdout_failure lib h]
    exact ⟨error_line_last _, error_line_newlines _⟩

/-- C7: two runs of the same program in which the unlock call returns the
same code write the same text to standard output and return the same exit
status, whatever else the two libraries do. -/
theorem determinism (lib1 lib2 : GnomeKeyring)
    (hok : lib1.GNOME_KEYRING_RESULT_OK = lib2.GNOME_KEYRING_RESULT_OK)
    (hc : result_code lib1 = result_code lib2) :
    (stdout lib1, exit_status lib1) = (stdout lib2, exit_status lib2) := by
  by_cases h : result_code lib1 = lib1.GNOME_KEYRING_RESULT_OK
  · have h2 : result_code lib2 = lib2.GNOME_KEYRING_RESULT_OK := by rw [← hc, ← hok]; exact h
    rw [stdout_success lib1 h, stdout_success lib2 h2, exit_status_success lib1 h,
      exit_status_success lib2 h2]
  · have h2 : result_code lib2 ≠ lib2.GNOME_KEYRING_RESULT_OK := by rw [← hc, ← hok]; exact h
    rw [stdout_failure lib1 h, stdout_failure lib2 h2, exit_status_failure lib1 h,
      exit_status_failure lib2 h2, hc]

theorem determinism_witness :
    (stdout pickyLib, exit_status pickyLib) =
      (stdout (constLib 0 5), exit_status (constLib 0 5)) :=
  determinism pickyLib (constLib 0 5) (by decide) (by decide)

/-- C8: when the unlock call returns `DENIED`, numeric value 5 and an
enumerator other than the success code, `main` returns 1 and standard output
is exactly the line `Error unlocking keyring: 5`. -/
theorem denied_scenario (lib : GnomeKeyring)
    (hret : result_code lib = GNOME_KEYRING_RESULT_DENIED)
    (hok : lib.GNOME_KEYRING_RESULT_OK ≠ GNOME_KEYRING_RESULT_DENIED) :
    GNOME_KEYRING_RESULT_DENIED = 5 ∧ exit_status lib = 1 ∧
      stdout lib = "Error unlocking keyring: 5\n" := by
  have h : result_code lib ≠ lib.GNOME_KEYRING_RESULT_OK := by
    rw [hret]; exact fun e => hok e.symm
  refine ⟨rfl, exit_status_failure lib h, ?_⟩
  rw [stdout_failure lib h, hret]
  rfl

theorem denied_scenario_witness :
    exit_status (constLib 0 5) = 1 ∧ stdout (constLib 0 5) = "Error unlocking keyring: 5\n" :=
  (denied_scenario (constLib 0 5) (by decide) (by decide)).2

/-- C9: for every result code, the complete trace of a run is one unlock call
followed by one write to standard output; no event of the run touches a file
or the process environment, and the run ends with exit status 0 or 1. -/
theorem no_other_effects (lib : GnomeKeyring) :
    trace lib = [Event.unlock_call none none, Event.stdout_write (stdout lib)] ∧
      (∀ e ∈ trace lib, e.touches_files_or_env = false) ∧
      (exit_status lib = 0 ∨ exit_status lib = 1) := by
  refine ⟨trace_eq lib, ?_, ?_⟩
  · rw [trace_eq]
    intro e he
    simp only [List.mem_cons, List.mem_singleton, List.not_mem_nil, or_false] at he
    rcases he with he | he <;> rw [he] <;> rfl
  · by_cases h : result_code lib = lib.GNOME_KEYRING_RESULT_OK
    · exact Or.inl (exit_status_success lib h)
    · exact Or.inr (exit_status_failure lib h)

/-- C10: for one program, two runs whose result codes differ write different
text to standard output; the printed line determines the result code. -/
theorem output_injective (lib1 lib2 : GnomeKeyring)
    (hok : lib1.GNOME_KEYRING_RESULT_OK = lib2.GNOME_KEYRING_RESULT_OK)
    (hne : result_code lib1 ≠ result_code lib2) :
    stdout lib1 ≠ stdout lib2 := by
  intro h
  apply hne
  rw [← recover_stdout lib1, ← recover_stdout lib2, hok, h]

theorem output_injective_witness :
    stdout (constLib 0 0) ≠ stdout (constLib 0 5) ∧
      stdout (constLib 0 5) ≠ stdout (constLib 0 (-5)) :=
  ⟨output_injective (constLib 0 0) (constLib 0 5) (by decide) (by decide),
    output_injective (constLib 0 5) (constLib 0 (-5)) (by decide) (by decide)⟩

end GkeyUnlock
